import Mathlib

/-
Verification of the LED animation engine and command protocol of
src/dancemore_ir/LEDAnimations.{h,cpp}.

Embedding conventions:
* Machine integers (`unsigned long`, `int`, `uint8_t`, `uint16_t`) are modelled
  as `Nat`.  All quantities reached by the claims stay far below every relevant
  word size, so no wrap-around is observable; the guard
  `currentTime - lastAnimationUpdate < animationInterval` uses truncated `Nat`
  subtraction, which agrees with the C unsigned subtraction whenever
  `lastAnimationUpdate ≤ currentTime`, the case realised along every trace with
  a monotone clock (`lastAnimationUpdate` is only ever set to a past `now` or
  reset to 0).
* `millis()` becomes an explicit `now : Nat` argument threaded into `update`,
  `startAnimation` and `processCommand`.
* `setColor(r,g,b)` is the ColorSink; a call to it is modelled as the emitted
  `Option Color` component of each operation's result (`none` = no call).  The
  common-anode inversion `analogWrite(pin, 255 - c)` is a per-channel
  bijection inside the sink and is not part of any claim.
* `random(n)` (Fire mode only) becomes an oracle argument `rnd : Nat × Nat`,
  used as `200 + rnd.1 % 56` and `rnd.2 % 100`, matching `random`'s range.
* Arduino `String` values become `List Char`; `String::toInt` is `atol`:
  skip C whitespace, optional sign, then a maximal digit run (0 if none),
  the result reduced to a 32-bit two's-complement `long` (`wrapLong`), as on
  the AVR target this code addresses (`avr/pgmspace.h`, `PROGMEM`).  The
  assignment `int duration = ...toInt()` then narrows that `long` to the
  16-bit AVR `int` (`wrapInt16`), so e.g. "-100000" yields duration 31072
  and "40000" yields -25536.
* In Thinking mode the source computes
  `(uint8_t)(intensity_float * 180)` with `intensity_float ∈ {0.6, 1.0, 0.4}`
  (as `float`).  Those float products truncate to exactly 108, 180 and 72
  (float(0.6)·180 = 108.000004…, 180, float(0.4)·180 = 72.000001…), so the
  embedding uses these integer results directly.
-/

set_option maxRecDepth 8000

/-- `enum AnimationMode` of LEDAnimations.h. -/
inductive AnimationMode where
  | ANIM_OFF
  | ANIM_ACK
  | ANIM_NACK
  | ANIM_RED_BLUE
  | ANIM_TRAFFIC
  | ANIM_MATRIX
  | ANIM_RAINBOW
  | ANIM_PULSE_RED
  | ANIM_PULSE_BLUE
  | ANIM_STROBE
  | ANIM_FIRE
  | ANIM_OCEAN
  | ANIM_THINKING
  deriving DecidableEq, Repr

open AnimationMode

/-- An (r,g,b) triple as passed to `setColor`. -/
structure Color where
  r : Nat
  g : Nat
  b : Nat
  deriving DecidableEq, Repr

/-- The mutable animation state of the `LEDAnimations` class (the pin numbers
and `debugMode`, which never influence the animation logic, are omitted). -/
structure LEDState where
  animationMode : AnimationMode
  animationEndTime : Nat
  lastAnimationUpdate : Nat
  animationStep : Nat
  animationInterval : Nat
  animationIndex : Nat
  animationIndex2 : Nat
  ackFlashState : Bool
  deriving DecidableEq, Repr

/-- The state established by the `LEDAnimations` constructor. -/
def initState : LEDState :=
  { animationMode := ANIM_OFF
    animationEndTime := 0
    lastAnimationUpdate := 0
    animationStep := 0
    animationInterval := 500
    animationIndex := 0
    animationIndex2 := 0
    ackFlashState := false }

/-- `LEDAnimations::rainbowTable`.  The source array literal actually contains
66 rows (the final comment block "(58-63)" lists eight entries); only the
first `RAINBOW_TABLE_SIZE = 64` are ever read because every access is reduced
modulo 64 first. -/
def rainbowTable : List Color :=
  [⟨255,0,0⟩, ⟨255,16,0⟩, ⟨255,32,0⟩, ⟨255,48,0⟩, ⟨255,64,0⟩, ⟨255,80,0⟩,
   ⟨255,96,0⟩, ⟨255,112,0⟩, ⟨255,128,0⟩, ⟨255,144,0⟩, ⟨255,160,0⟩,
   ⟨255,176,0⟩, ⟨255,192,0⟩, ⟨255,208,0⟩, ⟨255,224,0⟩, ⟨255,240,0⟩,
   ⟨255,255,0⟩, ⟨224,255,0⟩, ⟨192,255,0⟩, ⟨160,255,0⟩, ⟨128,255,0⟩, ⟨96,255,0⟩,
   ⟨64,255,0⟩, ⟨32,255,0⟩, ⟨16,255,0⟩, ⟨0,255,0⟩, ⟨0,255,32⟩,
   ⟨0,255,64⟩, ⟨0,255,96⟩, ⟨0,255,128⟩, ⟨0,255,160⟩, ⟨0,255,192⟩,
   ⟨0,255,224⟩, ⟨0,255,255⟩, ⟨0,224,255⟩, ⟨0,192,255⟩, ⟨0,160,255⟩,
   ⟨0,128,255⟩, ⟨0,96,255⟩, ⟨0,64,255⟩, ⟨0,32,255⟩, ⟨0,16,255⟩, ⟨0,0,255⟩,
   ⟨16,0,255⟩, ⟨32,0,255⟩, ⟨48,0,255⟩, ⟨64,0,255⟩, ⟨80,0,255⟩,
   ⟨96,0,255⟩, ⟨112,0,255⟩, ⟨128,0,255⟩, ⟨144,0,255⟩, ⟨160,0,255⟩,
   ⟨176,0,255⟩, ⟨192,0,255⟩, ⟨208,0,255⟩, ⟨224,0,255⟩, ⟨240,0,255⟩,
   ⟨255,0,255⟩, ⟨255,0,224⟩, ⟨255,0,192⟩, ⟨255,0,160⟩, ⟨255,0,128⟩,
   ⟨255,0,96⟩, ⟨255,0,64⟩, ⟨255,0,32⟩]

/-- `RAINBOW_TABLE_SIZE`. -/
def RAINBOW_TABLE_SIZE : Nat := 64

/-- `LEDAnimations::sineLookup` (64 entries, `(sin + 1)/2` scaled to 0..255). -/
def sineLookup : List Nat :=
  [128, 140, 152, 164, 176, 187, 198, 208, 218, 227, 235, 242, 248, 252, 255,
   255, 252, 248, 242, 235, 227, 218, 208, 198, 187, 176, 164, 152, 140, 128,
   115, 103, 91, 79, 68, 57, 47, 37, 28, 20, 13, 7, 3, 0, 0,
   3, 7, 13, 20, 28, 37, 47, 57, 68, 79, 91, 103, 115, 128, 140,
   152, 164, 176, 187]

/-- A read `sineLookup[i]` (in-bounds reads return the table entry). -/
def sineAt (i : Nat) : Nat := sineLookup.getD i 0

/-- `struct AnimationTiming`. -/
structure AnimationTiming where
  animType : AnimationMode
  interval : Nat
  briefDuration : Nat
  deriving DecidableEq, Repr

/-- `timingTable` of LEDAnimations.cpp. -/
def timingTable : List AnimationTiming :=
  [⟨ANIM_ACK, 100, 300⟩,
   ⟨ANIM_NACK, 100, 300⟩,
   ⟨ANIM_RED_BLUE, 150, 0⟩,
   ⟨ANIM_TRAFFIC, 800, 0⟩,
   ⟨ANIM_MATRIX, 50, 0⟩,
   ⟨ANIM_RAINBOW, 50, 0⟩,
   ⟨ANIM_PULSE_RED, 30, 0⟩,
   ⟨ANIM_PULSE_BLUE, 30, 0⟩,
   ⟨ANIM_STROBE, 100, 0⟩,
   ⟨ANIM_FIRE, 80, 0⟩,
   ⟨ANIM_OCEAN, 40, 0⟩,
   ⟨ANIM_THINKING, 200, 0⟩]

/-- `LEDAnimations::getRainbowColor` (the caller-side `uint8_t` truncation is
subsumed by the function's own `index % RAINBOW_TABLE_SIZE`). -/
def getRainbowColor (index : Nat) : Color :=
  rainbowTable.getD (index % RAINBOW_TABLE_SIZE) ⟨0, 0, 0⟩

/-- `LEDAnimations::update`.  Returns the new state and the argument of the
`setColor` call the body performs (`none` when no `setColor` runs). -/
def update (s : LEDState) (now : Nat) (rnd : Nat × Nat) : LEDState × Option Color :=
  if 0 < s.animationEndTime ∧ s.animationEndTime < now then
    ({ s with animationMode := ANIM_OFF }, some ⟨0, 0, 0⟩)
  else if now - s.lastAnimationUpdate < s.animationInterval then
    (s, none)
  else
    let s1 := { s with lastAnimationUpdate := now }
    match s1.animationMode with
    | ANIM_ACK =>
        if s1.animationStep = 0 then
          ({ s1 with ackFlashState := true, animationStep := s1.animationStep + 1 },
           some ⟨0, 64, 0⟩)
        else if s1.animationStep = 1 then
          ({ s1 with ackFlashState := false, animationMode := ANIM_OFF,
                     animationEndTime := 0, animationStep := s1.animationStep + 1 },
           some ⟨0, 0, 0⟩)
        else
          ({ s1 with animationStep := s1.animationStep + 1 }, none)
    | ANIM_NACK =>
        if s1.animationStep = 0 then
          ({ s1 with ackFlashState := true, animationStep := s1.animationStep + 1 },
           some ⟨64, 0, 0⟩)
        else if s1.animationStep = 1 then
          ({ s1 with ackFlashState := false, animationMode := ANIM_OFF,
                     animationEndTime := 0, animationStep := s1.animationStep + 1 },
           some ⟨0, 0, 0⟩)
        else
          ({ s1 with animationStep := s1.animationStep + 1 }, none)
    | ANIM_RED_BLUE =>
        ({ s1 with animationStep := s1.animationStep + 1 },
         some (if s1.animationStep % 2 = 0 then ⟨255, 0, 0⟩ else ⟨0, 0, 255⟩))
    | ANIM_TRAFFIC =>
        ({ s1 with animationStep := s1.animationStep + 1 },
         some (if s1.animationStep % 3 = 0 then ⟨255, 0, 0⟩
               else if s1.animationStep % 3 = 1 then ⟨0, 255, 0⟩
               else ⟨255, 255, 0⟩))
    | ANIM_MATRIX =>
        ({ s1 with animationIndex := (s1.animationIndex + 1) % 64 },
         some ⟨0, sineAt s1.animationIndex, 0⟩)
    | ANIM_RAINBOW =>
        ({ s1 with animationStep := s1.animationStep + 1 },
         some (getRainbowColor (s1.animationStep % RAINBOW_TABLE_SIZE)))
    | ANIM_PULSE_RED =>
        ({ s1 with animationIndex := (s1.animationIndex + 2) % 64 },
         some ⟨sineAt s1.animationIndex, 0, 0⟩)
    | ANIM_PULSE_BLUE =>
        ({ s1 with animationIndex := (s1.animationIndex + 2) % 64 },
         some ⟨0, 0, sineAt s1.animationIndex⟩)
    | ANIM_STROBE =>
        ({ s1 with animationStep := s1.animationStep + 1 },
         some (if s1.animationStep % 2 = 0 then ⟨255, 255, 255⟩ else ⟨0, 0, 0⟩))
    | ANIM_FIRE =>
        (s1, some ⟨200 + rnd.1 % 56, rnd.2 % 100, 0⟩)
    | ANIM_OCEAN =>
        ({ s1 with animationIndex := (s1.animationIndex + 1) % 64,
                   animationIndex2 := (s1.animationIndex2 + 2) % 64 },
         some ⟨0, sineAt s1.animationIndex2 * 100 / 255, sineAt s1.animationIndex⟩)
    | ANIM_THINKING =>
        let brightness : Nat :=
          if s1.animationStep % 3 = 0 then 108
          else if s1.animationStep % 3 = 1 then 180
          else 72
        ({ s1 with animationStep := s1.animationStep + 1 },
         some (if s1.animationStep / 3 % 4 = 0 then ⟨0, brightness, 0⟩
               else if s1.animationStep / 3 % 4 = 1 then ⟨brightness, 0, 0⟩
               else if s1.animationStep / 3 % 4 = 2 then ⟨brightness, brightness, 0⟩
               else ⟨0, 0, brightness⟩))
    | ANIM_OFF =>
        (s1, some ⟨0, 0, 0⟩)

/-- `LEDAnimations::startAnimation`. -/
def startAnimation (s : LEDState) (animType : AnimationMode) (durationSeconds : Nat)
    (now : Nat) : LEDState × Option Color :=
  let s1 := { s with animationMode := animType, animationStep := 0,
                     animationIndex := 0, animationIndex2 := 0,
                     lastAnimationUpdate := 0 }
  let s2 :=
    match timingTable.find? (fun t => t.animType == animType) with
    | some t =>
        { s1 with animationInterval := t.interval,
                  animationEndTime :=
                    if 0 < t.briefDuration then now + t.briefDuration
                    else if 0 < durationSeconds then now + durationSeconds * 1000
                    else 0 }
    | none => s1
  if animType = ANIM_OFF then ({ s2 with animationEndTime := 0 }, some ⟨0, 0, 0⟩)
  else (s2, none)

/-- `LEDAnimations::off`. -/
def off (s : LEDState) : LEDState × Option Color :=
  ({ s with animationMode := ANIM_OFF, animationEndTime := 0 }, some ⟨0, 0, 0⟩)

/-- `LEDAnimations::isAnimating`. -/
def isAnimating (s : LEDState) : Bool :=
  s.animationMode != ANIM_OFF

/-- `LEDAnimations::flashAck`. -/
def flashAck (s : LEDState) (now : Nat) : LEDState × Option Color :=
  startAnimation s ANIM_ACK 0 now

/-- `LEDAnimations::flashNack`. -/
def flashNack (s : LEDState) (now : Nat) : LEDState × Option Color :=
  startAnimation s ANIM_NACK 0 now

/-- `struct LEDCommand`, with Arduino strings as character lists. -/
structure LEDCommand where
  name : List Char
  animationType : AnimationMode
  requiresDuration : Bool
  deriving DecidableEq, Repr

/-- `LEDAnimations::commands`. -/
def commands : List LEDCommand :=
  [⟨['o','f','f'], ANIM_OFF, false⟩,
   ⟨['a','c','k'], ANIM_ACK, false⟩,
   ⟨['n','a','c','k'], ANIM_NACK, false⟩,
   ⟨['r','e','d','-','b','l','u','e'], ANIM_RED_BLUE, true⟩,
   ⟨['r','e','d','-','g','r','e','e','n','-','y','e','l','l','o','w'], ANIM_TRAFFIC, true⟩,
   ⟨['m','a','t','r','i','x'], ANIM_MATRIX, true⟩,
   ⟨['r','a','i','n','b','o','w'], ANIM_RAINBOW, true⟩,
   ⟨['p','u','l','s','e','-','r','e','d'], ANIM_PULSE_RED, true⟩,
   ⟨['p','u','l','s','e','-','b','l','u','e'], ANIM_PULSE_BLUE, true⟩,
   ⟨['s','t','r','o','b','e'], ANIM_STROBE, true⟩,
   ⟨['f','i','r','e'], ANIM_FIRE, true⟩,
   ⟨['o','c','e','a','n'], ANIM_OCEAN, true⟩,
   ⟨['t','h','i','n','k','i','n','g'], ANIM_THINKING, true⟩]

/-- C `isspace` on the ASCII range (space and the five control whitespaces). -/
def isSpaceChar (c : Char) : Bool :=
  c.toNat == 32 || (9 ≤ c.toNat && c.toNat ≤ 13)

/-- C `isdigit`. -/
def isDigitChar (c : Char) : Bool :=
  48 ≤ c.toNat && c.toNat ≤ 57

/-- Numeric value of a digit run (base 10). -/
def digitsVal (l : List Char) : Nat :=
  l.foldl (fun a c => a * 10 + (c.toNat - 48)) 0

/-- Two's-complement reduction to the AVR 32-bit `long`. -/
def wrapLong (v : Int) : Int :=
  (v + 2147483648) % 4294967296 - 2147483648

/-- Two's-complement reduction to the AVR 16-bit `int` (the narrowing the
assignment `int duration = param.substring(...).toInt();` performs). -/
def wrapInt16 (v : Int) : Int :=
  (v + 32768) % 65536 - 32768

/-- `String::toInt`, i.e. C `atol`: skip leading whitespace, optional sign,
then the value of the maximal leading digit run (0 when there is none),
reduced to the 32-bit `long` of the AVR target.  (Reducing the exact value
once is the same as the accumulator `result * 10 + digit` wrapping at every
step, since reduction mod 2^32 commutes with `+`, `*` and negation; every
value a claim exercises is far inside the `long` range, where `wrapLong` is
the identity.) -/
def atol (sIn : List Char) : Int :=
  match sIn.dropWhile isSpaceChar with
  | [] => 0
  | c :: rest =>
      if c = '-' then wrapLong (- (digitsVal (rest.takeWhile isDigitChar) : Int))
      else if c = '+' then wrapLong (digitsVal (rest.takeWhile isDigitChar) : Int)
      else wrapLong (digitsVal ((c :: rest).takeWhile isDigitChar) : Int)

/-- The characters of the literal "LED:". -/
def ledPrefix : List Char := ['L','E','D',':']

/-- Arduino `String::startsWith` (prefix as the first argument):
`listStartsWith pre s` is true iff `s` begins with `pre`. -/
def listStartsWith : List Char → List Char → Bool
  | [], _ => true
  | p :: ps, s =>
      match s with
      | [] => false
      | c :: cs => p == c && listStartsWith ps cs

/-- The command-scanning loop body of `LEDAnimations::processCommand`
(the `printHelp()` on fallthrough is serial output only and mutates nothing). -/
def processLoop (s : LEDState) (param : List Char) (now : Nat) :
    List LEDCommand → Bool × LEDState × Option Color
  | [] => (true, s, none)
  | c :: cs =>
      if c.requiresDuration then
        let cmdNameStr := c.name ++ [' ']
        if listStartsWith cmdNameStr param then
          let duration := wrapInt16 (atol (param.drop cmdNameStr.length))
          if 0 < duration then
            let r := startAnimation s c.animationType duration.toNat now
            (true, r.1, r.2)
          else (true, s, none)
        else processLoop s param now cs
      else
        if param == c.name then
          if c.animationType = ANIM_OFF then
            let r := off s
            (true, r.1, r.2)
          else
            let r := startAnimation s c.animationType 0 now
            (true, r.1, r.2)
        else processLoop s param now cs

/-- `LEDAnimations::processCommand`: first component is the returned `bool`,
then the state after the call and the `setColor` argument, if any. -/
def processCommand (s : LEDState) (command : List Char) (now : Nat) :
    Bool × LEDState × Option Color :=
  if listStartsWith ledPrefix command then
    processLoop s (command.drop 4) now commands
  else (false, s, none)

/-- Run a sequence of `update` calls at the given times (Fire's random oracle
fixed at (0,0); no claim exercises Fire), collecting every `setColor`
argument in order. -/
def runUpdates : LEDState → List Nat → LEDState × List (Option Color)
  | s, [] => (s, [])
  | s, t :: ts =>
      let p := update s t (0, 0)
      let q := runUpdates p.1 ts
      (q.1, p.2 :: q.2)

/-- Sanity: the source's sine table has exactly 64 entries. -/
theorem sineLookup_length : sineLookup.length = 64 := by decide

/-- Sanity: the source's rainbow array literal has 66 rows. -/
theorem rainbowTable_length : rainbowTable.length = 66 := by decide

/-- The `briefDuration` the timing-table scan associates with a mode
(0 when the mode has no table row, as for `ANIM_OFF`). -/
def briefOf (m : AnimationMode) : Nat :=
  match timingTable.find? (fun t => t.animType == m) with
  | some t => t.briefDuration
  | none => 0

/-- C1 (amended).  If `end_time` is set and `now > end_time`, `update` forces
`mode = Off`, drives the ColorSink to (0,0,0) and returns without executing
any mode step function, leaving every other field — including `end_time`,
which is NOT cleared — unchanged; moreover the only ways `update` can move a
running animation to Off are this expiry branch and the step-1 cutoff of the
Ack/Nack step functions. -/
theorem update_expiry_characterization (s : LEDState) (now : Nat) (rnd : Nat × Nat) :
    (0 < s.animationEndTime → s.animationEndTime < now →
      update s now rnd = ({ s with animationMode := ANIM_OFF }, some ⟨0, 0, 0⟩)) ∧
    ((update s now rnd).1.animationMode = ANIM_OFF →
      s.animationMode = ANIM_OFF ∨
      (0 < s.animationEndTime ∧ s.animationEndTime < now) ∨
      ((s.animationMode = ANIM_ACK ∨ s.animationMode = ANIM_NACK) ∧
        s.animationStep = 1)) := by
  constructor
  · intro h1 h2
    simp only [update]
    rw [if_pos ⟨h1, h2⟩]
  · intro h
    by_cases hc : 0 < s.animationEndTime ∧ s.animationEndTime < now
    · exact Or.inr (Or.inl hc)
    · simp only [update] at h
      rw [if_neg hc] at h
      by_cases hg : now - s.lastAnimationUpdate < s.animationInterval
      · rw [if_pos hg] at h
        exact Or.inl h
      · rw [if_neg hg] at h
        cases hm : s.animationMode <;> simp [hm] at h ⊢
        · split at h
          · simp at h
          · split at h
            · rename_i h0 h1
              exact Or.inr h1
            · simp at h
        · split at h
          · simp at h
          · split at h
            · rename_i h0 h1
              exact Or.inr h1
            · simp at h

/-- C1 witness: a concrete expired state on which the expiry branch fires. -/
theorem update_expiry_characterization_witness :
    update { initState with animationMode := ANIM_RED_BLUE, animationEndTime := 300,
                            animationInterval := 150 } 301 (0, 0) =
      ({ initState with animationMode := ANIM_OFF, animationEndTime := 300,
                        animationInterval := 150 }, some ⟨0, 0, 0⟩) :=
  (update_expiry_characterization
    { initState with animationMode := ANIM_RED_BLUE, animationEndTime := 300,
                     animationInterval := 150 } 301 (0, 0)).1
    (by decide) (by decide)

/-- C1 counterexample.  Start Ack at time 0 (`end_time = 300`): the expiry
branch taken at time 301 leaves `end_time = 300` instead of clearing it; and
an Ack run self-terminates already at its second step (time 200 ≤ 300), i.e.
without the expiry branch — refuting both "clears end_time" and "this expiry
branch is the only way an animation self-terminates". -/
theorem update_expiry_keeps_endTime_cex :
    (update (startAnimation initState ANIM_ACK 0 0).1 301 (0, 0)).1.animationEndTime = 300 ∧
    (runUpdates (startAnimation initState ANIM_ACK 0 0).1 [100, 200]).1.animationMode
      = ANIM_OFF ∧
    ¬ (300 : Nat) < 200 := by decide

/-- C2 (amended).  For every mode other than Off, `startAnimation` computes
`end_time` by the stated precedence (brief duration first, then the caller's
duration, else unset); for Off the final `animType == ANIM_OFF` branch clears
`end_time` unconditionally, so a positive `duration_seconds` is ignored
rather than honoured. -/
theorem startAnimation_endTime_precedence (s : LEDState) (m : AnimationMode)
    (d now : Nat) :
    (m ≠ ANIM_OFF →
      (startAnimation s m d now).1.animationEndTime =
        (if 0 < briefOf m then now + briefOf m
         else if 0 < d then now + d * 1000 else 0)) ∧
    (startAnimation s ANIM_OFF d now).1.animationEndTime = 0 := by
  constructor
  · intro hm
    cases m with
    | ANIM_OFF => exact absurd rfl hm
    | ANIM_ACK =>
        have hf : timingTable.find? (fun t => t.animType == ANIM_ACK)
            = some ⟨ANIM_ACK, 100, 300⟩ := rfl
        simp [startAnimation, briefOf, hf]
    | ANIM_NACK =>
        have hf : timingTable.find? (fun t => t.animType == ANIM_NACK)
            = some ⟨ANIM_NACK, 100, 300⟩ := rfl
        simp [startAnimation, briefOf, hf]
    | ANIM_RED_BLUE =>
        have hf : timingTable.find? (fun t => t.animType == ANIM_RED_BLUE)
            = some ⟨ANIM_RED_BLUE, 150, 0⟩ := rfl
        simp [startAnimation, briefOf, hf]
    | ANIM_TRAFFIC =>
        have hf : timingTable.find? (fun t => t.animType == ANIM_TRAFFIC)
            = some ⟨ANIM_TRAFFIC, 800, 0⟩ := rfl
        simp [startAnimation, briefOf, hf]
    | ANIM_MATRIX =>
        have hf : timingTable.find? (fun t => t.animType == ANIM_MATRIX)
            = some ⟨ANIM_MATRIX, 50, 0⟩ := rfl
        simp [startAnimation, briefOf, hf]
    | ANIM_RAINBOW =>
        have hf : timingTable.find? (fun t => t.animType == ANIM_RAINBOW)
            = some ⟨ANIM_RAINBOW, 50, 0⟩ := rfl
        simp [startAnimation, briefOf, hf]
    | ANIM_PULSE_RED =>
        have hf : timingTable.find? (fun t => t.animType == ANIM_PULSE_RED)
            = some ⟨ANIM_PULSE_RED, 30, 0⟩ := rfl
        simp [startAnimation, briefOf, hf]
    | ANIM_PULSE_BLUE =>
        have hf : timingTable.find? (fun t => t.animType == ANIM_PULSE_BLUE)
            = some ⟨ANIM_PULSE_BLUE, 30, 0⟩ := rfl
        simp [startAnimation, briefOf, hf]
    | ANIM_STROBE =>
        have hf : timingTable.find? (fun t => t.animType == ANIM_STROBE)
            = some ⟨ANIM_STROBE, 100, 0⟩ := rfl
        simp [startAnimation, briefOf, hf]
    | ANIM_FIRE =>
        have hf : timingTable.find? (fun t => t.animType == ANIM_FIRE)
            = some ⟨ANIM_FIRE, 80, 0⟩ := rfl
        simp [startAnimation, briefOf, hf]
    | ANIM_OCEAN =>
        have hf : timingTable.find? (fun t => t.animType == ANIM_OCEAN)
            = some ⟨ANIM_OCEAN, 40, 0⟩ := rfl
        simp [startAnimation, briefOf, hf]
    | ANIM_THINKING =>
        have hf : timingTable.find? (fun t => t.animType == ANIM_THINKING)
            = some ⟨ANIM_THINKING, 200, 0⟩ := rfl
        simp [startAnimation, briefOf, hf]
  · simp [startAnimation]

/-- C2 witness: Rainbow with a caller duration of 5 s gets `end_time
= now + 5000`. -/
theorem startAnimation_endTime_precedence_witness :
    (startAnimation initState ANIM_RAINBOW 5 1000).1.animationEndTime = 1000 + 5 * 1000 :=
  by
    have h := (startAnimation_endTime_precedence initState ANIM_RAINBOW 5 1000).1
      (by decide)
    simpa using h

/-- C2 counterexample.  `start(Off, 5)` at time 1000: the mode's brief
duration is 0 and the duration argument is positive, so the claimed
precedence demands `end_time = 1000 + 5·1000`; the code clears it to 0. -/
theorem startAnimation_off_ignores_duration_cex :
    briefOf ANIM_OFF = 0 ∧
    (startAnimation initState ANIM_OFF 5 1000).1.animationEndTime = 0 ∧
    (0 : Nat) ≠ 1000 + 5 * 1000 := by decide

/-- C3 (amended).  Provided the expiry branch does not fire (`end_time` unset
or `now ≤ end_time`), an `update` call with
`now - last_update_time < interval_ms` returns the state completely unchanged
and performs no `setColor` call. -/
theorem update_subinterval_noop (s : LEDState) (now : Nat) (rnd : Nat × Nat)
    (hexp : s.animationEndTime = 0 ∨ now ≤ s.animationEndTime)
    (hint : now - s.lastAnimationUpdate < s.animationInterval) :
    update s now rnd = (s, none) := by
  have hc : ¬ (0 < s.animationEndTime ∧ s.animationEndTime < now) := by
    rcases hexp with h | h <;> omega
  simp only [update]
  rw [if_neg hc, if_pos hint]

/-- C3 witness: a fresh engine polled at time 0 with interval 500. -/
theorem update_subinterval_noop_witness :
    update initState 0 (0, 0) = (initState, none) :=
  update_subinterval_noop initState 0 (0, 0) (Or.inl rfl) (by decide)

/-- C3 counterexample.  Start RedBlue for 1 s at time 0 and tick once at
time 900 (state: `end_time = 1000`, `last_update = 900`, `interval = 150`).
At `now = 1001` we have `now - last_update = 101 < 150`, yet `update` is not
a no-op: the expiry check precedes the interval guard, so it forces
`mode = Off` and drives the sink. -/
theorem update_subinterval_not_noop_cex :
    ((1001 : Nat) -
        (update (startAnimation initState ANIM_RED_BLUE 1 0).1 900 (0, 0)).1.lastAnimationUpdate <
      (update (startAnimation initState ANIM_RED_BLUE 1 0).1 900 (0, 0)).1.animationInterval) ∧
    (update (startAnimation initState ANIM_RED_BLUE 1 0).1 900 (0, 0)).1.animationMode
      = ANIM_RED_BLUE ∧
    (update (update (startAnimation initState ANIM_RED_BLUE 1 0).1 900 (0, 0)).1
        1001 (0, 0)).1.animationMode = ANIM_OFF ∧
    (update (update (startAnimation initState ANIM_RED_BLUE 1 0).1 900 (0, 0)).1
        1001 (0, 0)).2 = some ⟨0, 0, 0⟩ := by decide

/-- C8 (amended).  `stop()` and `start(Off, 0)` both force `mode = Off`,
clear `end_time`, keep `interval` and drive the ColorSink to (0,0,0); but
they do not leave identical states: `start(Off, 0)` additionally resets
`step_counter`, both phase indices and `last_update_time` to 0, while
`stop()` leaves them at their previous values. -/
theorem off_vs_startOff (s : LEDState) (now : Nat) :
    off s = ({ s with animationMode := ANIM_OFF, animationEndTime := 0 },
             some ⟨0, 0, 0⟩) ∧
    startAnimation s ANIM_OFF 0 now =
      ({ s with animationMode := ANIM_OFF, animationEndTime := 0,
                animationStep := 0, animationIndex := 0, animationIndex2 := 0,
                lastAnimationUpdate := 0 }, some ⟨0, 0, 0⟩) ∧
    (off s).1.animationMode = (startAnimation s ANIM_OFF 0 now).1.animationMode ∧
    (off s).1.animationEndTime = (startAnimation s ANIM_OFF 0 now).1.animationEndTime ∧
    (off s).1.animationInterval = (startAnimation s ANIM_OFF 0 now).1.animationInterval ∧
    (off s).2 = (startAnimation s ANIM_OFF 0 now).2 :=
  ⟨rfl, rfl, rfl, rfl, rfl, rfl⟩

/-- C8 counterexample.  In the state reached by `start(RedBlue, 0)` at time 0
followed by one tick at 150 (`step_counter = 1`, `last_update = 150`),
`stop()` and `start(Off, 0)` leave different states: `stop()` keeps
`step_counter = 1`, `start(Off, 0)` resets it to 0. -/
theorem off_startOff_differ_cex :
    (off (update (startAnimation initState ANIM_RED_BLUE 0 0).1 150 (0, 0)).1).1 ≠
      (startAnimation (update (startAnimation initState ANIM_RED_BLUE 0 0).1 150 (0, 0)).1
        ANIM_OFF 0 200).1 ∧
    (off (update (startAnimation initState ANIM_RED_BLUE 0 0).1 150 (0, 0)).1).1.animationStep
      = 1 ∧
    (startAnimation (update (startAnimation initState ANIM_RED_BLUE 0 0).1 150 (0, 0)).1
        ANIM_OFF 0 200).1.animationStep = 0 := by decide

/-- C4.  After `start(Ack, 0)` at time `n`, the first on-interval tick
(`t1 ≥ 100`, since `last_update` was reset to 0, and before the 300 ms brief
cutoff) emits (0,64,0); the next tick at least 100 ms later emits (0,0,0) and
leaves the engine with `is_animating() = false` — whether it runs the step-1
cutoff (`t2` before the deadline) or the expiry branch (`t2` past it). -/
theorem ack_sequence (s0 : LEDState) (n t1 t2 : Nat) (r1 r2 : Nat × Nat)
    (h1 : 100 ≤ t1) (h2 : t1 ≤ n + 300) (h3 : t1 + 100 ≤ t2) :
    (update (startAnimation s0 ANIM_ACK 0 n).1 t1 r1).2 = some ⟨0, 64, 0⟩ ∧
    (update (update (startAnimation s0 ANIM_ACK 0 n).1 t1 r1).1 t2 r2).2
      = some ⟨0, 0, 0⟩ ∧
    isAnimating (update (update (startAnimation s0 ANIM_ACK 0 n).1 t1 r1).1 t2 r2).1
      = false := by
  have e1 : (startAnimation s0 ANIM_ACK 0 n).1 =
      { animationMode := ANIM_ACK, animationEndTime := n + 300,
        lastAnimationUpdate := 0, animationStep := 0, animationInterval := 100,
        animationIndex := 0, animationIndex2 := 0,
        ackFlashState := s0.ackFlashState } := rfl
  rw [e1]
  have hc1 : ¬ (0 < n + 300 ∧ n + 300 < t1) := by omega
  have hg1 : ¬ (t1 - 0 < 100) := by omega
  have e2 : update
      { animationMode := ANIM_ACK, animationEndTime := n + 300,
        lastAnimationUpdate := 0, animationStep := 0, animationInterval := 100,
        animationIndex := 0, animationIndex2 := 0,
        ackFlashState := s0.ackFlashState } t1 r1 =
      ({ animationMode := ANIM_ACK, animationEndTime := n + 300,
         lastAnimationUpdate := t1, animationStep := 1, animationInterval := 100,
         animationIndex := 0, animationIndex2 := 0, ackFlashState := true },
       some ⟨0, 64, 0⟩) := by
    simp only [update]
    rw [if_neg hc1, if_neg hg1]
    rfl
  rw [e2]
  refine ⟨rfl, ?_⟩
  by_cases hpast : n + 300 < t2
  · have hc2 : (0 < n + 300 ∧ n + 300 < t2) := by omega
    simp only [update]
    rw [if_pos hc2]
    exact ⟨rfl, rfl⟩
  · have hc2 : ¬ (0 < n + 300 ∧ n + 300 < t2) := by omega
    have hg2 : ¬ (t2 - t1 < 100) := by omega
    simp only [update]
    rw [if_neg hc2, if_neg hg2]
    exact ⟨rfl, rfl⟩

/-- C4 witness: the concrete schedule start at 0, ticks at 100 and 200. -/
theorem ack_sequence_witness :
    (update (startAnimation initState ANIM_ACK 0 0).1 100 (0, 0)).2 = some ⟨0, 64, 0⟩ ∧
    (update (update (startAnimation initState ANIM_ACK 0 0).1 100 (0, 0)).1 200 (0, 0)).2
      = some ⟨0, 0, 0⟩ ∧
    isAnimating
      (update (update (startAnimation initState ANIM_ACK 0 0).1 100 (0, 0)).1 200 (0, 0)).1
      = false :=
  ack_sequence initState 0 100 200 (0, 0) (0, 0) (by decide) (by decide) (by decide)

/-- The states reachable from the constructor state by any sequence of
`startAnimation`, `off` and `update` calls. -/
inductive Reachable : LEDState → Prop
  | init : Reachable initState
  | start (s : LEDState) (m : AnimationMode) (d now : Nat) :
      Reachable s → Reachable (startAnimation s m d now).1
  | stop (s : LEDState) : Reachable s → Reachable (off s).1
  | step (s : LEDState) (now : Nat) (rnd : Nat × Nat) :
      Reachable s → Reachable (update s now rnd).1

/-- Both phase indices of `startAnimation`'s result are 0. -/
theorem startAnimation_indices (s : LEDState) (m : AnimationMode) (d now : Nat) :
    (startAnimation s m d now).1.animationIndex = 0 ∧
    (startAnimation s m d now).1.animationIndex2 = 0 := by
  simp only [startAnimation]
  split
  · split <;> exact ⟨rfl, rfl⟩
  · split <;> exact ⟨rfl, rfl⟩

/-- C9.  In every reachable state both phase indices are strictly below 64:
they start at 0, every `start` resets them to 0, and `update` only ever
replaces them by values reduced modulo 64 — so every `sineLookup[...]` read
`update` performs is within the 64-entry table. -/
theorem reachable_index_bound (s : LEDState) (h : Reachable s) :
    s.animationIndex < 64 ∧ s.animationIndex2 < 64 := by
  induction h with
  | init => exact ⟨by decide, by decide⟩
  | start s m d now _ _ =>
      have h2 := startAnimation_indices s m d now
      omega
  | stop s _ ih => exact ih
  | step s now rnd _ ih =>
      simp only [update]
      split
      · exact ih
      · split
        · exact ih
        · cases hm : s.animationMode with
          | ANIM_OFF => simp [hm]; exact ih
          | ANIM_ACK =>
              simp [hm]
              split
              · exact ih
              · split <;> exact ih
          | ANIM_NACK =>
              simp [hm]
              split
              · exact ih
              · split <;> exact ih
          | ANIM_RED_BLUE => simp [hm]; exact ih
          | ANIM_TRAFFIC => simp [hm]; exact ih
          | ANIM_MATRIX => simp [hm]; exact ⟨by omega, ih.2⟩
          | ANIM_RAINBOW => simp [hm]; exact ih
          | ANIM_PULSE_RED => simp [hm]; exact ⟨by omega, ih.2⟩
          | ANIM_PULSE_BLUE => simp [hm]; exact ⟨by omega, ih.2⟩
          | ANIM_STROBE => simp [hm]; exact ih
          | ANIM_FIRE => simp [hm]; exact ih
          | ANIM_OCEAN => simp [hm]; exact ⟨by omega, by omega⟩
          | ANIM_THINKING => simp [hm]; exact ih

/-- C9 witness: the invariant instantiated at the constructor state. -/
theorem reachable_index_bound_witness :
    initState.animationIndex < 64 ∧ initState.animationIndex2 < 64 :=
  reachable_index_bound initState Reachable.init

/-- C7.  `route("LED:thinking 20")` (at time 0) reports the line handled and
starts Thinking with `interval_ms = 200` and `end_time = 0 + 20000`; the next
24 on-interval ticks (every 200 ms) emit the 12-step sequence
green/red/yellow/blue × (fade-in 108 = ⌊0.6·180⌋, hold 180 = 1.0·180,
fade-out 72 = ⌊0.4·180⌋) twice over, i.e. the output is periodic with
period 12. -/
theorem thinking_route_sequence :
    (processCommand initState
        ['L','E','D',':','t','h','i','n','k','i','n','g',' ','2','0'] 0).1 = true ∧
    (processCommand initState
        ['L','E','D',':','t','h','i','n','k','i','n','g',' ','2','0'] 0).2.1.animationMode
      = ANIM_THINKING ∧
    (processCommand initState
        ['L','E','D',':','t','h','i','n','k','i','n','g',' ','2','0'] 0).2.1.animationInterval
      = 200 ∧
    (processCommand initState
        ['L','E','D',':','t','h','i','n','k','i','n','g',' ','2','0'] 0).2.1.animationEndTime
      = 0 + 20 * 1000 ∧
    (runUpdates
        (processCommand initState
          ['L','E','D',':','t','h','i','n','k','i','n','g',' ','2','0'] 0).2.1
        ((List.range 24).map (fun k => 200 * (k + 1)))).2
      = ([⟨0, 108, 0⟩, ⟨0, 180, 0⟩, ⟨0, 72, 0⟩,
          ⟨108, 0, 0⟩, ⟨180, 0, 0⟩, ⟨72, 0, 0⟩,
          ⟨108, 108, 0⟩, ⟨180, 180, 0⟩, ⟨72, 72, 0⟩,
          ⟨0, 0, 108⟩, ⟨0, 0, 180⟩, ⟨0, 0, 72⟩] ++
         [⟨0, 108, 0⟩, ⟨0, 180, 0⟩, ⟨0, 72, 0⟩,
          ⟨108, 0, 0⟩, ⟨180, 0, 0⟩, ⟨72, 0, 0⟩,
          ⟨108, 108, 0⟩, ⟨180, 180, 0⟩, ⟨72, 72, 0⟩,
          ⟨0, 0, 108⟩, ⟨0, 0, 180⟩, ⟨0, 0, 72⟩] : List Color).map some := by
  decide

/-- An "on-interval" call schedule: each time is at least one interval after
the previous update time. -/
def onSchedule (last interval : Nat) : List Nat → Bool
  | [] => true
  | t :: ts => decide (last + interval ≤ t) && onSchedule t interval ts

/-- In Rainbow mode with no end time set, a run of on-interval `update` calls
emits exactly the palette entries at `step_counter mod 64`, `step_counter`
advancing by 1 per tick. -/
theorem rainbow_run (ts : List Nat) :
    ∀ s : LEDState, s.animationMode = ANIM_RAINBOW → s.animationEndTime = 0 →
      s.animationInterval = 50 → onSchedule s.lastAnimationUpdate 50 ts = true →
      (runUpdates s ts).2 =
        (List.range ts.length).map
          (fun k => some (getRainbowColor ((s.animationStep + k) % 64))) := by
  induction ts with
  | nil => intro s _ _ _ _; rfl
  | cons t ts ih =>
      intro s hm he hi hs
      simp only [onSchedule, Bool.and_eq_true, decide_eq_true_eq] at hs
      obtain ⟨hsched, htail⟩ := hs
      have hc : ¬ (0 < s.animationEndTime ∧ s.animationEndTime < t) := by omega
      have hg : ¬ (t - s.lastAnimationUpdate < s.animationInterval) := by omega
      have hupd : update s t (0, 0) =
          ({ s with lastAnimationUpdate := t, animationStep := s.animationStep + 1 },
           some (getRainbowColor (s.animationStep % RAINBOW_TABLE_SIZE))) := by
        simp only [update]
        rw [if_neg hc, if_neg hg, hm]
      simp only [runUpdates, hupd]
      rw [ih { s with lastAnimationUpdate := t, animationStep := s.animationStep + 1 }
            hm he hi htail]
      rw [List.length_cons, List.range_succ_eq_map, List.map_cons, List.map_map]
      have hsh : ∀ k : Nat, s.animationStep + 1 + k = s.animationStep + (k + 1) := by
        intro k; omega
      simp [Function.comp, RAINBOW_TABLE_SIZE, hsh]

/-- C6 (amended).  After `start(Rainbow, 0)` — no end time, so no expiry can
interrupt — any 128 on-interval `update` calls emit a color sequence whose
first 64 entries equal its next 64 entries: Rainbow indexes the palette by
`step_counter mod 64` and advances `step_counter` by 1 per tick, so the
output is periodic with period 64. -/
theorem rainbow_periodicity (s0 : LEDState) (n : Nat) (ts : List Nat)
    (hlen : ts.length = 128) (hs : onSchedule 0 50 ts = true) :
    (runUpdates (startAnimation s0 ANIM_RAINBOW 0 n).1 ts).2.take 64
      = ((runUpdates (startAnimation s0 ANIM_RAINBOW 0 n).1 ts).2.drop 64).take 64 := by
  have e1 : (startAnimation s0 ANIM_RAINBOW 0 n).1 =
      { animationMode := ANIM_RAINBOW, animationEndTime := 0,
        lastAnimationUpdate := 0, animationStep := 0, animationInterval := 50,
        animationIndex := 0, animationIndex2 := 0,
        ackFlashState := s0.ackFlashState } := rfl
  rw [e1]
  rw [rainbow_run ts _ rfl rfl rfl hs]
  rw [hlen]
  dsimp only
  decide

/-- C6 witness: the canonical schedule, one tick every 50 ms from time 50. -/
theorem rainbow_periodicity_witness :
    (runUpdates (startAnimation initState ANIM_RAINBOW 0 0).1
        ((List.range 128).map (fun k => 50 * (k + 1)))).2.take 64
      = ((runUpdates (startAnimation initState ANIM_RAINBOW 0 0).1
          ((List.range 128).map (fun k => 50 * (k + 1)))).2.drop 64).take 64 :=
  rainbow_periodicity initState 0 ((List.range 128).map (fun k => 50 * (k + 1)))
    (by decide) (by decide)

/-- C6 counterexample.  In the claim's own scenario `start(Rainbow, 5)`
(5000 ms end time) the 128 on-interval calls at 50, 100, …, 6400 ms do NOT
repeat: only 100 ticks fit before `now > end_time`, after which the expiry
branch emits (0,0,0), so the second block of 64 colors differs from the
first. -/
theorem rainbow_5s_not_periodic_cex :
    onSchedule 0 50 ((List.range 128).map (fun k => 50 * (k + 1))) = true ∧
    (runUpdates (startAnimation initState ANIM_RAINBOW 5 0).1
        ((List.range 128).map (fun k => 50 * (k + 1)))).2.take 64
      ≠ ((runUpdates (startAnimation initState ANIM_RAINBOW 5 0).1
          ((List.range 128).map (fun k => 50 * (k + 1)))).2.drop 64).take 64 := by
  decide

/-- Whether one table entry matches a stripped command line, mirroring the
two match conditions of the scan loop (prefix-plus-space for duration
commands, exact equality otherwise). -/
def cmdMatches (e : LEDCommand) (param : List Char) : Bool :=
  if e.requiresDuration then listStartsWith (e.name ++ [' ']) param
  else param == e.name

/-- If every table entry that matches `param` is a duration command whose
trailing text parses — after the `long` parse and the AVR `int` narrowing —
to a non-positive duration, the scan loop reports the line handled and
changes nothing. -/
theorem processLoop_no_state_change (s : LEDState) (param : List Char) (now : Nat)
    (cs : List LEDCommand)
    (h : ∀ e ∈ cs, cmdMatches e param = true →
      e.requiresDuration = true ∧
      wrapInt16 (atol (param.drop (e.name ++ [' ']).length)) ≤ 0) :
    processLoop s param now cs = (true, s, none) := by
  induction cs with
  | nil => rfl
  | cons e cs ih =>
      have htail : ∀ e2 ∈ cs, cmdMatches e2 param = true →
          e2.requiresDuration = true ∧
          wrapInt16 (atol (param.drop (e2.name ++ [' ']).length)) ≤ 0 := by
        intro e2 hmem hm
        exact h e2 (List.mem_cons_of_mem e hmem) hm
      simp only [processLoop]
      cases hdur : e.requiresDuration with
      | true =>
          rw [if_pos rfl]
          by_cases hpre : listStartsWith (e.name ++ [' ']) param = true
          · rw [if_pos hpre]
            obtain ⟨hb1, hb2⟩ :=
              h e (List.mem_cons_self e cs) (by simp [cmdMatches, hdur, hpre])
            rw [if_neg (by omega)]
          · rw [if_neg hpre]
            exact ih htail
      | false =>
          rw [if_neg (by simp)]
          by_cases heq : (param == e.name) = true
          · exact absurd (h e (List.mem_cons_self e cs)
              (by simp [cmdMatches, hdur, heq])).1 (by simp [hdur])
          · rw [if_neg heq]
            exact ih htail

/-- C5 (amended).  Every line carrying the `LED:` prefix whose stripped text
either matches no command, or matches only duration commands whose trailing
text converts to a non-positive duration after the `long` parse and the AVR
16-bit `int` narrowing — which covers unparsable text (0) and every
non-positive integer within `int` range, but not out-of-range negatives such
as -100000, which wrap positive — is reported handled (`true`) while the
whole `AnimationState` is left unchanged and no `setColor` is performed. -/
theorem led_line_always_handled (s : LEDState) (now : Nat) (line : List Char)
    (hpre : listStartsWith ledPrefix line = true)
    (h : ∀ e ∈ commands, cmdMatches e (line.drop 4) = true →
      e.requiresDuration = true ∧
      wrapInt16 (atol ((line.drop 4).drop (e.name ++ [' ']).length)) ≤ 0) :
    processCommand s line now = (true, s, none) := by
  simp only [processCommand, if_pos hpre]
  exact processLoop_no_state_change s (line.drop 4) now commands h

/-- C5 witness: `route("LED:bogus")` is handled and changes nothing. -/
theorem led_line_always_handled_witness :
    processCommand initState ['L','E','D',':','b','o','g','u','s'] 0
      = (true, initState, none) :=
  led_line_always_handled initState 0 ['L','E','D',':','b','o','g','u','s']
    (by decide) (by decide)

/-- C5 counterexample.  `route("LED:matrix -100000")` carries a recognized
duration command with the non-positive trailing integer -100000 (its parsed
`long` value), yet the narrowing to the 16-bit AVR `int` yields
duration 31072 > 0, so the call does change the AnimationState: it starts
Matrix for 31072 seconds — refuting "no animation state change occurs" for
a non-positive trailing integer. -/
theorem led_negative_duration_changes_state_cex :
    atol ['-','1','0','0','0','0','0'] = -100000 ∧
    (-100000 : Int) ≤ 0 ∧
    wrapInt16 (-100000) = 31072 ∧
    (processCommand initState
        ['L','E','D',':','m','a','t','r','i','x',' ','-','1','0','0','0','0','0'] 0).1
      = true ∧
    (processCommand initState
        ['L','E','D',':','m','a','t','r','i','x',' ','-','1','0','0','0','0','0'] 0).2.1
      = (startAnimation initState ANIM_MATRIX 31072 0).1 ∧
    (processCommand initState
        ['L','E','D',':','m','a','t','r','i','x',' ','-','1','0','0','0','0','0'] 0).2.1
      ≠ initState := by decide

/-- A digit character is not C whitespace. -/
theorem digit_not_space {c : Char} (h : isDigitChar c = true) :
    isSpaceChar c = false := by
  simp only [isDigitChar, Bool.and_eq_true, decide_eq_true_eq] at h
  simp only [isSpaceChar, Bool.or_eq_false_iff, Bool.and_eq_false_iff,
    beq_eq_false_iff_ne, ne_eq, decide_eq_false_iff_not, not_le]
  omega

/-- The maximal digit run of `d ++ rest` is exactly `d` when `d` is all
digits and `rest` does not begin with one. -/
theorem takeWhile_digits_append (d rest : List Char)
    (hd : ∀ ch ∈ d, isDigitChar ch = true)
    (hr : isDigitChar (rest.headD ' ') = false) :
    (d ++ rest).takeWhile isDigitChar = d := by
  induction d with
  | nil =>
      cases rest with
      | nil => rfl
      | cons r rs =>
          simp only [List.headD_cons] at hr
          simp [List.takeWhile_cons, hr]
  | cons ch d2 ih =>
      rw [List.cons_append, List.takeWhile_cons,
        if_pos (hd ch (List.mem_cons_self ch d2))]
      rw [ih (fun x hx => hd x (List.mem_cons_of_mem ch hx))]

/-- `atol` on a leading digit run followed by non-digit text returns the
`long`-wrapped value of the digit run: the trailing text is ignored. -/
theorem atol_digits_append (d rest : List Char) (hne : d ≠ [])
    (hd : ∀ ch ∈ d, isDigitChar ch = true)
    (hr : isDigitChar (rest.headD ' ') = false) :
    atol (d ++ rest) = wrapLong (digitsVal d : Int) := by
  obtain ⟨ch, d2, rfl⟩ : ∃ ch d2, d = ch :: d2 := by
    cases d with
    | nil => exact absurd rfl hne
    | cons a l => exact ⟨a, l, rfl⟩
  have hch : isDigitChar ch = true := hd ch (List.mem_cons_self ch d2)
  have hdrop : ((ch :: d2 ++ rest).dropWhile isSpaceChar) = ch :: (d2 ++ rest) := by
    rw [List.cons_append, List.dropWhile_cons, if_neg (by simp [digit_not_space hch])]
  have hdash : ¬ ch = '-' := by
    intro he
    rw [he] at hch
    exact absurd hch (by decide)
  have hplus : ¬ ch = '+' := by
    intro he
    rw [he] at hch
    exact absurd hch (by decide)
  simp only [atol, hdrop]
  rw [if_neg hdash, if_neg hplus]
  rw [show ch :: (d2 ++ rest) = (ch :: d2) ++ rest from rfl]
  rw [takeWhile_digits_append (ch :: d2) rest hd hr]

/-- For a value within the positive AVR `int` range, both the `long` parse
and the subsequent `int` narrowing are the identity. -/
theorem wrap_small (v : Nat) (h : v ≤ 32767) :
    wrapInt16 (wrapLong (v : Int)) = (v : Int) := by
  simp only [wrapInt16, wrapLong]
  omega

/-- C10 (amended).  For every duration-requiring command in the table,
`route` accepts any `LED:` line in which the text after `name + " "` begins
with a digit run and it ignores everything after those digits (`toInt` stops
at the first non-digit): with and without the trailing text the call returns
the identical result; and whenever the digit run's value is a positive
integer within the AVR `int` range (at most 32767) — as with
"LED:matrix 5x9" versus "LED:matrix 5" — that result is handled plus exactly
the `startAnimation` state change with the parsed duration.  (Larger runs
such as 40000 narrow to a negative `int` and produce no state change.) -/
theorem duration_trailing_text_ignored (s : LEDState) (now : Nat)
    (c : LEDCommand) (hc : c ∈ commands) (hdur : c.requiresDuration = true)
    (d rest : List Char) (hne : d ≠ [])
    (hd : ∀ ch ∈ d, isDigitChar ch = true)
    (hrest : isDigitChar (rest.headD ' ') = false) :
    processCommand s (ledPrefix ++ c.name ++ ' ' :: (d ++ rest)) now
      = processCommand s (ledPrefix ++ c.name ++ ' ' :: d) now ∧
    (0 < digitsVal d → digitsVal d ≤ 32767 →
      processCommand s (ledPrefix ++ c.name ++ ' ' :: (d ++ rest)) now
        = (true, (startAnimation s c.animationType (digitsVal d) now).1,
                 (startAnimation s c.animationType (digitsVal d) now).2)) := by
  have key : ∀ rest2 : List Char, isDigitChar (rest2.headD ' ') = false →
      processCommand s (ledPrefix ++ c.name ++ ' ' :: (d ++ rest2)) now
        = (if 0 < wrapInt16 (wrapLong (digitsVal d : Int)) then
            (true,
             (startAnimation s c.animationType
               (wrapInt16 (wrapLong (digitsVal d : Int))).toNat now).1,
             (startAnimation s c.animationType
               (wrapInt16 (wrapLong (digitsVal d : Int))).toNat now).2)
           else (true, s, none)) := by
    intro rest2 hr2
    have hA : atol (d ++ rest2) = wrapLong (digitsVal d : Int) :=
      atol_digits_append d rest2 hne hd hr2
    simp only [commands, List.mem_cons, List.not_mem_nil, or_false] at hc
    rcases hc with rfl | rfl | rfl | rfl | rfl | rfl | rfl | rfl | rfl | rfl | rfl | rfl | rfl
    · exact absurd hdur (by decide)
    · exact absurd hdur (by decide)
    · exact absurd hdur (by decide)
    · have h1 : processCommand s
          (ledPrefix ++ ['r','e','d','-','b','l','u','e'] ++ ' ' :: (d ++ rest2)) now =
          (if 0 < wrapInt16 (atol (d ++ rest2)) then
            (true,
             (startAnimation s ANIM_RED_BLUE (wrapInt16 (atol (d ++ rest2))).toNat now).1,
             (startAnimation s ANIM_RED_BLUE (wrapInt16 (atol (d ++ rest2))).toNat now).2)
           else (true, s, none)) := rfl
      rw [show (⟨['r','e','d','-','b','l','u','e'], ANIM_RED_BLUE, true⟩ :
          LEDCommand).name = ['r','e','d','-','b','l','u','e'] from rfl]
      rw [h1, hA]
    · have h1 : processCommand s
          (ledPrefix ++ ['r','e','d','-','g','r','e','e','n','-','y','e','l','l','o','w'] ++ ' ' :: (d ++ rest2)) now =
          (if 0 < wrapInt16 (atol (d ++ rest2)) then
            (true,
             (startAnimation s ANIM_TRAFFIC (wrapInt16 (atol (d ++ rest2))).toNat now).1,
             (startAnimation s ANIM_TRAFFIC (wrapInt16 (atol (d ++ rest2))).toNat now).2)
           else (true, s, none)) := rfl
      rw [show (⟨['r','e','d','-','g','r','e','e','n','-','y','e','l','l','o','w'], ANIM_TRAFFIC, true⟩ :
          LEDCommand).name = ['r','e','d','-','g','r','e','e','n','-','y','e','l','l','o','w'] from rfl]
      rw [h1, hA]
    · have h1 : processCommand s
          (ledPrefix ++ ['m','a','t','r','i','x'] ++ ' ' :: (d ++ rest2)) now =
          (if 0 < wrapInt16 (atol (d ++ rest2)) then
            (true,
             (startAnimation s ANIM_MATRIX (wrapInt16 (atol (d ++ rest2))).toNat now).1,
             (startAnimation s ANIM_MATRIX (wrapInt16 (atol (d ++ rest2))).toNat now).2)
           else (true, s, none)) := rfl
      rw [show (⟨['m','a','t','r','i','x'], ANIM_MATRIX, true⟩ :
          LEDCommand).name = ['m','a','t','r','i','x'] from rfl]
      rw [h1, hA]
    · have h1 : processCommand s
          (ledPrefix ++ ['r','a','i','n','b','o','w'] ++ ' ' :: (d ++ rest2)) now =
          (if 0 < wrapInt16 (atol (d ++ rest2)) then
            (true,
             (startAnimation s ANIM_RAINBOW (wrapInt16 (atol (d ++ rest2))).toNat now).1,
             (startAnimation s ANIM_RAINBOW (wrapInt16 (atol (d ++ rest2))).toNat now).2)
           else (true, s, none)) := rfl
      rw [show (⟨['r','a','i','n','b','o','w'], ANIM_RAINBOW, true⟩ :
          LEDCommand).name = ['r','a','i','n','b','o','w'] from rfl]
      rw [h1, hA]
    · have h1 : processCommand s
          (ledPrefix ++ ['p','u','l','s','e','-','r','e','d'] ++ ' ' :: (d ++ rest2)) now =
          (if 0 < wrapInt16 (atol (d ++ rest2)) then
            (true,
             (startAnimation s ANIM_PULSE_RED (wrapInt16 (atol (d ++ rest2))).toNat now).1,
             (startAnimation s ANIM_PULSE_RED (wrapInt16 (atol (d ++ rest2))).toNat now).2)
           else (true, s, none)) := rfl
      rw [show (⟨['p','u','l','s','e','-','r','e','d'], ANIM_PULSE_RED, true⟩ :
          LEDCommand).name = ['p','u','l','s','e','-','r','e','d'] from rfl]
      rw [h1, hA]
    · have h1 : processCommand s
          (ledPrefix ++ ['p','u','l','s','e','-','b','l','u','e'] ++ ' ' :: (d ++ rest2)) now =
          (if 0 < wrapInt16 (atol (d ++ rest2)) then
            (true,
             (startAnimation s ANIM_PULSE_BLUE (wrapInt16 (atol (d ++ rest2))).toNat now).1,
             (startAnimation s ANIM_PULSE_BLUE (wrapInt16 (atol (d ++ rest2))).toNat now).2)
           else (true, s, none)) := rfl
      rw [show (⟨['p','u','l','s','e','-','b','l','u','e'], ANIM_PULSE_BLUE, true⟩ :
          LEDCommand).name = ['p','u','l','s','e','-','b','l','u','e'] from rfl]
      rw [h1, hA]
    · have h1 : processCommand s
          (ledPrefix ++ ['s','t','r','o','b','e'] ++ ' ' :: (d ++ rest2)) now =
          (if 0 < wrapInt16 (atol (d ++ rest2)) then
            (true,
             (startAnimation s ANIM_STROBE (wrapInt16 (atol (d ++ rest2))).toNat now).1,
             (startAnimation s ANIM_STROBE (wrapInt16 (atol (d ++ rest2))).toNat now).2)
           else (true, s, none)) := rfl
      rw [show (⟨['s','t','r','o','b','e'], ANIM_STROBE, true⟩ :
          LEDCommand).name = ['s','t','r','o','b','e'] from rfl]
      rw [h1, hA]
    · have h1 : processCommand s
          (ledPrefix ++ ['f','i','r','e'] ++ ' ' :: (d ++ rest2)) now =
          (if 0 < wrapInt16 (atol (d ++ rest2)) then
            (true,
             (startAnimation s ANIM_FIRE (wrapInt16 (atol (d ++ rest2))).toNat now).1,
             (startAnimation s ANIM_FIRE (wrapInt16 (atol (d ++ rest2))).toNat now).2)
           else (true, s, none)) := rfl
      rw [show (⟨['f','i','r','e'], ANIM_FIRE, true⟩ :
          LEDCommand).name = ['f','i','r','e'] from rfl]
      rw [h1, hA]
    · have h1 : processCommand s
          (ledPrefix ++ ['o','c','e','a','n'] ++ ' ' :: (d ++ rest2)) now =
          (if 0 < wrapInt16 (atol (d ++ rest2)) then
            (true,
             (startAnimation s ANIM_OCEAN (wrapInt16 (atol (d ++ rest2))).toNat now).1,
             (startAnimation s ANIM_OCEAN (wrapInt16 (atol (d ++ rest2))).toNat now).2)
           else (true, s, none)) := rfl
      rw [show (⟨['o','c','e','a','n'], ANIM_OCEAN, true⟩ :
          LEDCommand).name = ['o','c','e','a','n'] from rfl]
      rw [h1, hA]
    · have h1 : processCommand s
          (ledPrefix ++ ['t','h','i','n','k','i','n','g'] ++ ' ' :: (d ++ rest2)) now =
          (if 0 < wrapInt16 (atol (d ++ rest2)) then
            (true,
             (startAnimation s ANIM_THINKING (wrapInt16 (atol (d ++ rest2))).toNat now).1,
             (startAnimation s ANIM_THINKING (wrapInt16 (atol (d ++ rest2))).toNat now).2)
           else (true, s, none)) := rfl
      rw [show (⟨['t','h','i','n','k','i','n','g'], ANIM_THINKING, true⟩ :
          LEDCommand).name = ['t','h','i','n','k','i','n','g'] from rfl]
      rw [h1, hA]
  have k1 := key rest hrest
  have k2 := key [] (by decide)
  rw [List.append_nil] at k2
  constructor
  · rw [k1, k2]
  · intro hpos hle
    rw [k1, wrap_small (digitsVal d) hle, if_pos (Int.natCast_pos.mpr hpos),
      Int.toNat_natCast]

/-- C10 counterexample.  `route("LED:matrix 40000")` carries a positive
decimal integer after "matrix ", yet the claimed state change does not
happen: 40000 narrows to the AVR `int` -25536 ≤ 0, so the command is
swallowed with the state untouched, where the claim demands the Matrix
start for 40000 seconds. -/
theorem duration_out_of_int_range_cex :
    digitsVal ['4','0','0','0','0'] = 40000 ∧
    (0 : Nat) < 40000 ∧
    wrapInt16 (wrapLong 40000) = -25536 ∧
    processCommand initState
        ['L','E','D',':','m','a','t','r','i','x',' ','4','0','0','0','0'] 0
      = (true, initState, none) ∧
    (startAnimation initState ANIM_MATRIX 40000 0).1.animationMode
      = ANIM_MATRIX ∧
    initState.animationMode ≠ ANIM_MATRIX := by decide

/-- C10 witness: `route("LED:matrix 5x9")` equals `route("LED:matrix 5")`,
both starting Matrix for 5 seconds. -/
theorem duration_trailing_text_ignored_witness :
    processCommand initState
        ['L','E','D',':','m','a','t','r','i','x',' ','5','x','9'] 0
      = processCommand initState ['L','E','D',':','m','a','t','r','i','x',' ','5'] 0 ∧
    processCommand initState
        ['L','E','D',':','m','a','t','r','i','x',' ','5','x','9'] 0
      = (true, (startAnimation initState ANIM_MATRIX 5 0).1,
               (startAnimation initState ANIM_MATRIX 5 0).2) := by
  have h := duration_trailing_text_ignored initState 0
    ⟨['m','a','t','r','i','x'], ANIM_MATRIX, true⟩ (by decide) (by decide)
    ['5'] ['x','9'] (by decide) (by decide) (by decide)
  exact ⟨h.1, h.2 (by decide) (by decide)⟩
